import Mathlib

/-!
Shallow embedding of the request-handling core of `quantum_simulator/app.py`
(rate limiter, question validator, simulation-summary provider, the
`/api/ask` orchestration, the paginated `/api/quantum-data` read and the
`/api/health` probe), together with theorems settling the specification
claims about it.

Modelling conventions:
* Python/JSON values are the inductive `PyVal`; numbers are rationals
  (floats are modelled as exact rationals), time is a rational number of
  seconds.
* Fallible Python operations (attribute access on the wrong type,
  subscripting, `in` on a non-container) return `Except PyExc`.
* The SQLite store is an explicit argument: `Except String (List SimRow)`,
  where `Except.error e` models an `sqlite3.Error` whose `str(e)` is `e`.
* The upstream `requests.post` outcome is an explicit `UpstreamResult`
  argument; `raise_for_status` raises exactly for statuses in `[400, 600)`,
  per the `requests` library contract.
-/

namespace QuantumApp

/-- Python exceptions that the embedded fragments can raise. -/
inductive PyExc where
  | attributeError
  | typeError
  | keyError
  | indexError
  deriving DecidableEq, Repr

/-- JSON-decoded Python values as they occur in this application.
Numbers (int or float) are modelled as exact rationals. -/
inductive PyVal where
  | pyNone
  | pyBool (b : Bool)
  | pyNum (q : ℚ)
  | pyStr (s : String)
  | pyList (xs : List PyVal)
  | pyDict (fields : List (String × PyVal))

/-- Python truthiness test (`not x` is `x.falsy`). -/
def PyVal.falsy : PyVal → Bool
  | .pyNone => true
  | .pyBool b => !b
  | .pyNum q => q = 0
  | .pyStr s => s = ""
  | .pyList xs => xs.isEmpty
  | .pyDict fs => fs.isEmpty

/-- Substring test on character lists: does `pat` occur contiguously in `hay`? -/
def hasSubList (hay pat : List Char) : Bool :=
  match hay with
  | [] => pat.isEmpty
  | _ :: t => pat.isPrefixOf hay || hasSubList t pat

/-- Python `pat in s` for strings: substring containment. -/
def strHasSub (s pat : String) : Bool :=
  hasSubList s.data pat.data

/-- Python `str.strip()`: remove leading and trailing whitespace. -/
def pyStrip (s : String) : String :=
  ⟨((s.data.dropWhile Char.isWhitespace).reverse.dropWhile Char.isWhitespace).reverse⟩

/-- Python `str.lower()` (ASCII case folding, as used by the denylist check). -/
def pyLower (s : String) : String :=
  ⟨s.data.map Char.toLower⟩

/-- Python `len` for strings: the number of characters. -/
def pyLen (s : String) : Nat :=
  s.data.length

/-- `MAX_QUESTION_LENGTH` from app.py. -/
def MAX_QUESTION_LENGTH : Nat := 1000

/-- The fixed denylist from `validate_question`. -/
def suspicious_keywords : List String :=
  ["<script", "javascript:", "data:", "vbscript:"]

/-- `validate_question` from app.py.  The argument is the JSON value found
under the `question` key (not necessarily a string).  Returns the
`(is_valid, result)` pair, or the Python exception the function raises
(`.strip()` on a truthy non-string raises `AttributeError`). -/
def validate_question (question : PyVal) : Except PyExc (Bool × String) :=
  if question.falsy then .ok (false, "No question provided")
  else
    match question with
    | .pyStr s =>
      let q := pyStrip s
      if q = "" then .ok (false, "Empty question")
      else if MAX_QUESTION_LENGTH < pyLen q then
        .ok (false, "Question too long (max 1000 characters)")
      else if suspicious_keywords.any (fun k => strHasSub (pyLower q) k) then
        .ok (false, "Invalid question content")
      else .ok (true, q)
    | _ => .error .attributeError

example : validate_question (.pyStr "") = .ok (false, "No question provided") := by rfl
example : validate_question (.pyStr "   ") = .ok (false, "Empty question") := by rfl
example : validate_question (.pyStr " hi ") = .ok (true, "hi") := by rfl
example : validate_question (.pyStr "<script>alert(1)</script>") =
    .ok (false, "Invalid question content") := by rfl
example : validate_question (.pyNum 123) = .error .attributeError := by rfl

/-! ### Rate limiter (`rate_limit` decorator in app.py)

One call of the decorated wrapper for a fixed client identity: prune the
identity's timestamp list with `current_time - ts < window_seconds`, reject
when the pruned list already has `max_requests` entries, otherwise append
`current_time`.  An identity absent from `request_timestamps` starts from
the empty list, so the per-identity state is just its `List ℚ` of
timestamps. -/

/-- One admission check of the `rate_limit` decorator for one identity:
returns the decision and the identity's new timestamp list. -/
def rate_limit_step (max_requests : Nat) (window_seconds : ℚ) (now : ℚ)
    (tss : List ℚ) : Bool × List ℚ :=
  let kept := tss.filter (fun ts => now - ts < window_seconds)
  if max_requests ≤ kept.length then (false, kept)
  else (true, kept ++ [now])

/-- Run the `/api/ask` limiter (`max_requests=5`, `window_seconds=60`) over a
sequence of attempt times for one identity, from a given timestamp list.
Returns the final timestamp list and the per-attempt decisions. -/
def runRL (tss : List ℚ) : List ℚ → List ℚ × List Bool
  | [] => (tss, [])
  | t :: rest =>
    let r := rate_limit_step 5 60 t tss
    let rec' := runRL r.2 rest
    (rec'.1, r.1 :: rec'.2)

/-- The sublist of attempt times the limiter admitted, starting from
timestamp list `tss`. -/
def admittedFrom (tss : List ℚ) : List ℚ → List ℚ
  | [] => []
  | t :: rest =>
    let r := rate_limit_step 5 60 t tss
    if r.1 then t :: admittedFrom r.2 rest else admittedFrom r.2 rest

/-- Membership of a time in the window `[a, a + 60)`. -/
def inWin (a s : ℚ) : Bool := decide (a ≤ s ∧ s < a + 60)

/-! ### The record store (`simulations` table, columns per generate_data.py) -/

/-- One row of the `simulations` table (the columns written by
`generate_quantum_data`); numeric SQL values are modelled as exact numbers. -/
structure SimRow where
  simulation_id : String
  algorithm : String
  qubits : ℤ
  depth : ℤ
  backend : String
  runtime_ms : ℚ
  accuracy : ℚ
  date_run : String
  parameters : String
  deriving DecidableEq, Repr

/-! ### SummaryProvider (`get_simulation_summary` in app.py)

The aggregate query `SELECT algorithm, AVG(accuracy), AVG(runtime_ms),
COUNT(*) FROM simulations GROUP BY algorithm ORDER BY avg_accuracy DESC
LIMIT ?` is embedded as: one group per distinct algorithm value, carrying the
exact means over its rows, sorted by mean accuracy descending, truncated to
the limit. -/

/-- One aggregate row of the summary query. -/
structure SummaryGroup where
  algorithm : String
  avg_accuracy : ℚ
  avg_runtime : ℚ
  simulation_count : Nat
  deriving DecidableEq, Repr

/-- The distinct algorithm values appearing in the store. -/
def algClasses (rows : List SimRow) : List String :=
  (rows.map (fun r => r.algorithm)).dedup

/-- The rows belonging to one algorithm group. -/
def rowsFor (rows : List SimRow) (alg : String) : List SimRow :=
  rows.filter (fun r => r.algorithm = alg)

/-- The aggregate (mean accuracy, mean runtime, row count) for one group. -/
def mkGroup (rows : List SimRow) (alg : String) : SummaryGroup :=
  ⟨alg,
   ((rowsFor rows alg).map (fun r => r.accuracy)).sum / (rowsFor rows alg).length,
   ((rowsFor rows alg).map (fun r => r.runtime_ms)).sum / (rowsFor rows alg).length,
   (rowsFor rows alg).length⟩

/-- All aggregate rows, one per distinct algorithm. -/
def groupRows (rows : List SimRow) : List SummaryGroup :=
  (algClasses rows).map (mkGroup rows)

/-- `ORDER BY avg_accuracy DESC`: group `g` may precede `h` when its mean
accuracy is at least as large. -/
def accGE (g h : SummaryGroup) : Prop := h.avg_accuracy ≤ g.avg_accuracy

instance : DecidableRel accGE :=
  fun g h => inferInstanceAs (Decidable (h.avg_accuracy ≤ g.avg_accuracy))

instance : IsTotal SummaryGroup accGE := ⟨fun g h => le_total h.avg_accuracy g.avg_accuracy⟩

instance : IsTrans SummaryGroup accGE := ⟨fun _ _ _ h1 h2 => le_trans h2 h1⟩

/-- The result set of the aggregate query, ordered and truncated. -/
def summaryRows (limit : Nat) (rows : List SimRow) : List SummaryGroup :=
  ((groupRows rows).insertionSort accGE).take limit

/-- Two-digit zero padding for the fractional part of a fixed-point render. -/
def natPad2 (n : Nat) : String :=
  if n < 10 then "0" ++ toString n else toString n

/-- Python `f"{x:.2f}"` on an exact rational: round to two decimal places.
(Ties are rounded up here; CPython rounds the underlying binary double to
even, a distinction invisible at non-tie values.) -/
def formatFixed2 (q : ℚ) : String :=
  let n : ℤ := round (q * 100)
  (if n < 0 then "-" else "") ++ toString (n.natAbs / 100) ++ "." ++ natPad2 (n.natAbs % 100)

/-- Python `f"{x:.0f}"` on an exact rational: round to the nearest integer. -/
def formatFixed0 (q : ℚ) : String :=
  toString (round q : ℤ)

/-- One rendered group line of the digest. -/
def summaryLine (g : SummaryGroup) : String :=
  "- " ++ g.algorithm ++ ": avg accuracy " ++ formatFixed2 g.avg_accuracy ++
    ", avg runtime " ++ formatFixed0 g.avg_runtime ++ "ms (" ++
    toString g.simulation_count ++ " runs)"

/-- `get_simulation_summary` from app.py.  The store argument is the queried
table: `Except.error e` models an `sqlite3.Error` raised while querying. -/
def get_simulation_summary (limit : Nat) (store : Except String (List SimRow)) : String :=
  match store with
  | .error _ => "Unable to retrieve simulation data."
  | .ok rows =>
    let groups := summaryRows limit rows
    if groups.isEmpty then "No quantum simulation data available yet."
    else String.intercalate "\n"
      ("Recent quantum simulation performance:" :: groups.map summaryLine)

/-! ### UpstreamClient and the `/api/ask` orchestration -/

/-- Outcome of the `requests.post` call to the upstream completion endpoint:
a transport timeout, another transport failure, or an HTTP response with a
status code and a body (`none` when the body is not decodable as JSON). -/
inductive UpstreamResult where
  | timeout
  | connectionError
  | response (status : Nat) (body : Option PyVal)

/-- Body of an `/api/ask` response: `{"error": msg}` or `{"answer": value}`. -/
inductive AskBody where
  | err (msg : String)
  | ans (v : PyVal)

/-- Python `key in container` for the containers relevant here; `in` on a
non-container raises `TypeError`. -/
def pyIn (key : String) : PyVal → Except PyExc Bool
  | .pyDict fs => .ok (fs.any (fun kv => kv.1 = key))
  | .pyList xs => .ok (xs.any (fun v => match v with | .pyStr s => s = key | _ => false))
  | .pyStr s => .ok (strHasSub s key)
  | _ => .error .typeError

/-- Python `container[key]` with a string key. -/
def pyGetStr : PyVal → String → Except PyExc PyVal
  | .pyDict fs, key =>
    match fs.lookup key with
    | some v => .ok v
    | none => .error .keyError
  | _, _ => .error .typeError

/-- Python `container[i]` with a nonnegative integer index. -/
def pyGetIdx : PyVal → Nat → Except PyExc PyVal
  | .pyList xs, i =>
    match xs.get? i with
    | some v => .ok v
    | none => .error .indexError
  | .pyStr s, i =>
    match s.data.get? i with
    | some c => .ok (.pyStr ⟨[c]⟩)
    | none => .error .indexError
  | .pyDict _, _ => .error .keyError
  | _, _ => .error .typeError

/-- Python `v.get(key, dflt)`: only dicts have `.get`; on any other value the
attribute access raises `AttributeError`. -/
def pyDictGet (v : PyVal) (key : String) (dflt : PyVal) : Except PyExc PyVal :=
  match v with
  | .pyDict fs => .ok ((fs.lookup key).getD dflt)
  | _ => .error .attributeError

/-- Lines 212–221 of app.py: check `'choices' not in data or not
data["choices"]`, then extract `data["choices"][0]["message"]["content"]`.
Any Python exception escapes to the handler's catch-all. -/
def extractAnswer (data : PyVal) : Except PyExc (Nat × AskBody) := do
  let hasChoices ← pyIn "choices" data
  if !hasChoices then
    return (500, .err "Invalid response from AI service")
  let choices ← pyGetStr data "choices"
  if choices.falsy then
    return (500, .err "Invalid response from AI service")
  let c0 ← pyGetIdx choices 0
  let msg ← pyGetStr c0 "message"
  let content ← pyGetStr msg "content"
  return (200, .ans content)

/-- The `try` block of `ask_quantum_ai` (lines 157–237 of app.py): body and
question validation, summary construction, upstream call and outcome
classification, and the `except` clauses.  The second component records
whether the upstream `requests.post` call was reached.  `raise_for_status`
raises `HTTPError` (a `RequestException`) exactly for statuses in
`[400, 600)`. -/
def ask_handler (body : Option PyVal) (store : Except String (List SimRow))
    (upstream : UpstreamResult) : (Nat × AskBody) × Bool :=
  match body with
  | none => ((400, .err "Invalid JSON data"), false)
  | some v =>
    if v.falsy then ((400, .err "Invalid JSON data"), false)
    else
      match pyDictGet v "question" (.pyStr "") with
      | .error _ => ((500, .err "An unexpected error occurred"), false)
      | .ok user_question =>
        match validate_question user_question with
        | .error _ => ((500, .err "An unexpected error occurred"), false)
        | .ok (false, reason) => ((400, .err reason), false)
        | .ok (true, _) =>
          let _data_summary := get_simulation_summary 5 store
          match upstream with
          | .timeout =>
            ((504, .err "AI service is currently slow. Please try again."), true)
          | .connectionError =>
            ((503, .err "AI service temporarily unavailable"), true)
          | .response status obody =>
            if 400 ≤ status ∧ status < 600 then
              ((503, .err "AI service temporarily unavailable"), true)
            else
              match obody with
              | none => ((500, .err "Invalid response from AI service"), true)
              | some data =>
                match extractAnswer data with
                | .ok r => (r, true)
                | .error _ => ((500, .err "An unexpected error occurred"), true)

/-- `ask_quantum_ai` (the `/api/ask` handler) with its `rate_limit(5, 60)`
decorator, for one client identity.  Arguments: the request time, the
identity's timestamp list, the parsed request body (`none` when no JSON body
is available), the store, and the upstream outcome.  Returns the HTTP
response, the identity's new timestamp list, and whether the upstream call
was made. -/
def ask_quantum_ai (now : ℚ) (tss : List ℚ) (body : Option PyVal)
    (store : Except String (List SimRow)) (upstream : UpstreamResult) :
    (Nat × AskBody) × List ℚ × Bool :=
  let rl := rate_limit_step 5 60 now tss
  if !rl.1 then ((429, .err "Rate limit exceeded. Try again later."), rl.2, false)
  else ((ask_handler body store upstream).1, rl.2, (ask_handler body store upstream).2)

/-! ### `/api/quantum-data` (paginated read) -/

/-- `ORDER BY simulation_id` on the text id column (binary collation). -/
def rowLe (a b : SimRow) : Prop := a.simulation_id ≤ b.simulation_id

instance : DecidableRel rowLe :=
  fun a b => inferInstanceAs (Decidable (a.simulation_id ≤ b.simulation_id))

instance : IsTotal SimRow rowLe := ⟨fun a b => le_total a.simulation_id b.simulation_id⟩

instance : IsTrans SimRow rowLe := ⟨fun _ _ _ h1 h2 => le_trans h1 h2⟩

/-- The store ordered by record id. -/
def sortRows (rows : List SimRow) : List SimRow :=
  rows.insertionSort rowLe

/-- SQLite `LIMIT lim OFFSET off`: a negative offset acts as 0, a negative
limit means unlimited. -/
def sqlSlice (xs : List SimRow) (lim off : ℤ) : List SimRow :=
  let dropped := xs.drop (max off 0).toNat
  if lim < 0 then dropped else dropped.take lim.toNat

/-- Body of an `/api/quantum-data` response: the data slice with its
pagination block, or `{"error": msg}`. -/
inductive QDBody where
  | ok (data : List SimRow) (page per_page : ℤ) (total : Nat) (pages : ℤ)
  | err (msg : String)
  deriving DecidableEq

/-- `get_quantum_data` (the `/api/quantum-data` handler).  `page` and
`per_page0` are the query parameters (already parsed, defaults applied).
Python `//` is floor division; `(total + per_page - 1) // per_page` with
`per_page = 0` raises `ZeroDivisionError`, which the catch-all turns into
the generic 500. -/
def get_quantum_data (store : Except String (List SimRow)) (page per_page0 : ℤ) :
    Nat × QDBody :=
  let per_page := min per_page0 100
  let offset := (page - 1) * per_page
  match store with
  | .error _ => (500, .err "Database error occurred")
  | .ok rows =>
    let total := rows.length
    let data := sqlSlice (sortRows rows) per_page offset
    if per_page = 0 then (500, .err "An unexpected error occurred")
    else (200, .ok data page per_page total (Int.fdiv ((total : ℤ) + per_page - 1) per_page))

/-! ### `/api/health` -/

/-- Body of an `/api/health` response; the unhealthy branch carries
`str(e)` of the caught exception in its `error` field. -/
inductive HealthBody where
  | healthy (timestamp : ℚ)
  | unhealthy (error : String) (timestamp : ℚ)
  deriving DecidableEq

/-- `health_check` (the `/api/health` handler): a trivial store round-trip;
`Except.error e` models any exception with `str(e) = e`. -/
def health_check (store : Except String Unit) (now : ℚ) : Nat × HealthBody :=
  match store with
  | .ok _ => (200, .healthy now)
  | .error e => (500, .unhealthy e now)

unseal Rat.add Rat.sub Rat.mul Rat.inv in
example : runRL [] [0, 1, 2, 3, 4, 5, 60] =
    ([1, 2, 3, 4, 60], [true, true, true, true, true, false, true]) := by
  decide

lemma runRL_nil (tss : List ℚ) : runRL tss [] = (tss, []) := rfl

lemma runRL_cons (tss : List ℚ) (t : ℚ) (rest : List ℚ) :
    runRL tss (t :: rest) =
      ((runRL (rate_limit_step 5 60 t tss).2 rest).1,
       (rate_limit_step 5 60 t tss).1 :: (runRL (rate_limit_step 5 60 t tss).2 rest).2) := rfl

lemma admittedFrom_nil (tss : List ℚ) : admittedFrom tss [] = [] := rfl

lemma admittedFrom_cons (tss : List ℚ) (t : ℚ) (rest : List ℚ) :
    admittedFrom tss (t :: rest) =
      if (rate_limit_step 5 60 t tss).1 then t :: admittedFrom (rate_limit_step 5 60 t tss).2 rest
      else admittedFrom (rate_limit_step 5 60 t tss).2 rest := rfl

/-- Every admitted time is one of the attempt times. -/
lemma mem_admittedFrom {s : ℚ} :
    ∀ {attempts tss : List ℚ}, s ∈ admittedFrom tss attempts → s ∈ attempts := by
  intro attempts
  induction attempts with
  | nil => intro tss h; simp [admittedFrom_nil] at h
  | cons t rest ih =>
    intro tss h
    rw [admittedFrom_cons] at h
    by_cases hc : (rate_limit_step 5 60 t tss).1
    · rw [if_pos hc] at h
      rcases List.mem_cons.mp h with h | h
      · exact h ▸ List.mem_cons_self t rest
      · exact List.mem_cons_of_mem t (ih h)
    · rw [if_neg hc] at h
      exact List.mem_cons_of_mem t (ih h)

/-- Counting which elements survive a filter that every counted element passes. -/
lemma countP_filter_of_imp {l : List ℚ} {p q : ℚ → Bool} (h : ∀ x, p x → q x) :
    (l.filter q).countP p = l.countP p := by
  induction l with
  | nil => rfl
  | cons x t ih =>
    by_cases hq : q x
    · simp [List.filter_cons, hq, List.countP_cons, ih]
    · have hp : ¬ p x = true := fun hpx => hq (h x hpx)
      simp [List.filter_cons, hq, List.countP_cons, ih, hp]

/-- Elements of the window `[a, a + 60)` survive a prune at any time `t < a + 60`. -/
lemma countP_window_filter (a t : ℚ) (hwin : t < a + 60) (tss : List ℚ) :
    (tss.filter (fun ts => decide (t - ts < 60))).countP (inWin a) = tss.countP (inWin a) := by
  apply countP_filter_of_imp
  intro x hx
  simp only [inWin, decide_eq_true_eq] at hx ⊢
  linarith [hx.1, hx.2]

/-- Generalized sliding-window bound: starting from any timestamp list, the
total count (carried state plus newly admitted) inside any window `[a, a+60)`
never exceeds `max 5 (initial count)`. -/
lemma admittedFrom_window_bound (attempts : List ℚ) :
    ∀ tss : List ℚ, attempts.Sorted (· ≤ ·) → ∀ a : ℚ,
      tss.countP (inWin a) + (admittedFrom tss attempts).countP (inWin a)
        ≤ max 5 (tss.countP (inWin a)) := by
  induction attempts with
  | nil =>
    intro tss _ a
    simp [admittedFrom_nil]
  | cons t rest ih =>
    intro tss hsort a
    obtain ⟨hts, hrest⟩ := List.sorted_cons.mp hsort
    by_cases hadm : 5 ≤ (tss.filter (fun ts => decide (t - ts < 60))).length
    · -- the attempt at time t is rejected
      have hstep : rate_limit_step 5 60 t tss =
          (false, tss.filter (fun ts => decide (t - ts < 60))) := by
        simp [rate_limit_step, hadm]
      rw [admittedFrom_cons, hstep]
      simp only [Bool.false_eq_true, if_false]
      by_cases hwin : t < a + 60
      · have heq := countP_window_filter a t hwin tss
        have hih := ih (tss.filter (fun ts => decide (t - ts < 60))) hrest a
        rw [heq] at hih
        exact hih
      · have hzero :
            (admittedFrom (tss.filter (fun ts => decide (t - ts < 60))) rest).countP (inWin a)
              = 0 := by
        -- every later admitted time is ≥ t ≥ a + 60, hence outside the window
          rw [List.countP_eq_zero]
          intro s hs
          have hmem := mem_admittedFrom hs
          have hts' := hts s hmem
          simp only [inWin, decide_eq_true_eq, not_and, not_lt]
          intro _
          linarith
        rw [hzero]
        simp [le_max_right]
    · -- the attempt at time t is admitted and recorded
      have hstep : rate_limit_step 5 60 t tss =
          (true, tss.filter (fun ts => decide (t - ts < 60)) ++ [t]) := by
        simp [rate_limit_step, hadm]
      rw [admittedFrom_cons, hstep]
      simp only [if_true]
      rw [List.countP_cons]
      by_cases hwin : t < a + 60
      · have heq := countP_window_filter a t hwin tss
        have hkeptlen : (tss.filter (fun ts => decide (t - ts < 60))).length ≤ 4 := by omega
        have hstate :
            ((tss.filter (fun ts => decide (t - ts < 60))) ++ [t]).countP (inWin a) ≤ 5 := by
          rw [List.countP_append]
          have h1 := List.countP_le_length (p := inWin a)
              (l := tss.filter (fun ts => decide (t - ts < 60)))
          have h2 := List.countP_le_length (p := inWin a) (l := [t])
          simp only [List.length_singleton] at h2
          omega
        have hih := ih (tss.filter (fun ts => decide (t - ts < 60)) ++ [t]) hrest a
        rw [max_eq_left hstate] at hih
        rw [List.countP_append] at hih
        rw [List.countP_cons] at hih
        simp only [List.countP_nil] at hih
        rw [heq] at hih
        have : tss.countP (inWin a) +
            ((admittedFrom (tss.filter (fun ts => decide (t - ts < 60)) ++ [t]) rest).countP
              (inWin a) + if inWin a t then 1 else 0) ≤ 5 := by omega
        exact le_trans this (le_max_left 5 _)
      · have hwt : (inWin a t : Bool) = false := by
          simp only [inWin, decide_eq_false_iff_not, not_and, not_lt]
          intro _
          linarith
        have hzero :
            (admittedFrom (tss.filter (fun ts => decide (t - ts < 60)) ++ [t]) rest).countP
              (inWin a) = 0 := by
          rw [List.countP_eq_zero]
          intro s hs
          have hmem := mem_admittedFrom hs
          have hts' := hts s hmem
          simp only [inWin, decide_eq_true_eq, not_and, not_lt]
          intro _
          linarith
        rw [hzero, hwt]
        simp [le_max_right]

/-- An admission check whose incoming timestamps all lie inside the window and
number fewer than 5 admits and appends the current time. -/
lemma admit_all_in_window (now : ℚ) (tss : List ℚ) (hall : ∀ s ∈ tss, now - s < 60)
    (hlen : tss.length < 5) :
    rate_limit_step 5 60 now tss = (true, tss ++ [now]) := by
  have hf : tss.filter (fun ts => decide (now - ts < 60)) = tss :=
    List.filter_eq_self.mpr (fun s hs => decide_eq_true (hall s hs))
  simp [rate_limit_step, hf, Nat.not_le.mpr hlen]

/-- An admission check whose incoming timestamps all lie inside the window and
already number at least 5 rejects and leaves the list unchanged. -/
lemma reject_full_window (now : ℚ) (tss : List ℚ) (hall : ∀ s ∈ tss, now - s < 60)
    (hlen : 5 ≤ tss.length) :
    rate_limit_step 5 60 now tss = (false, tss) := by
  have hf : tss.filter (fun ts => decide (now - ts < 60)) = tss :=
    List.filter_eq_self.mpr (fun s hs => decide_eq_true (hall s hs))
  simp [rate_limit_step, hf, hlen]

/-- After any admission check, every timestamp the limiter retains is younger
than the 60-second window (the stale ones were discarded before the check). -/
lemma state_in_window (now : ℚ) (tss : List ℚ) :
    ∀ s ∈ (rate_limit_step 5 60 now tss).2, now - s < 60 := by
  intro s hs
  simp only [rate_limit_step] at hs
  by_cases h : 5 ≤ (tss.filter (fun ts => decide (now - ts < 60))).length
  · rw [if_pos h] at hs
    exact of_decide_eq_true (List.mem_filter.mp hs).2
  · rw [if_neg h] at hs
    rcases List.mem_append.mp hs with hs | hs
    · exact of_decide_eq_true (List.mem_filter.mp hs).2
    · have : s = now := List.mem_singleton.mp hs
      subst this
      norm_num

/-- Six attempts inside one rolling window: the first five are admitted, the
sixth is rejected and its timestamp is not recorded; a further attempt made
exactly 60 seconds after the first admitted request is admitted again. -/
lemma sixth_rejected_scenario (t1 t2 t3 t4 t5 t6 : ℚ)
    (h12 : t1 ≤ t2) (h23 : t2 ≤ t3) (h34 : t3 ≤ t4) (h45 : t4 ≤ t5) (h56 : t5 ≤ t6)
    (hwin : t6 - t1 < 60) :
    runRL [] [t1, t2, t3, t4, t5, t6] =
      ([t1, t2, t3, t4, t5], [true, true, true, true, true, false])
    ∧ (runRL [] [t1, t2, t3, t4, t5, t6, t1 + 60]).2 =
      [true, true, true, true, true, false, true] := by
  have e1 : rate_limit_step 5 60 t1 [] = (true, [t1]) := by
    have := admit_all_in_window t1 [] (by simp) (by simp)
    simpa using this
  have e2 : rate_limit_step 5 60 t2 [t1] = (true, [t1, t2]) := by
    have := admit_all_in_window t2 [t1]
      (by intro s hs; fin_cases hs; linarith) (by simp)
    simpa using this
  have e3 : rate_limit_step 5 60 t3 [t1, t2] = (true, [t1, t2, t3]) := by
    have := admit_all_in_window t3 [t1, t2]
      (by intro s hs; fin_cases hs <;> linarith) (by simp)
    simpa using this
  have e4 : rate_limit_step 5 60 t4 [t1, t2, t3] = (true, [t1, t2, t3, t4]) := by
    have := admit_all_in_window t4 [t1, t2, t3]
      (by intro s hs; fin_cases hs <;> linarith) (by simp)
    simpa using this
  have e5 : rate_limit_step 5 60 t5 [t1, t2, t3, t4] = (true, [t1, t2, t3, t4, t5]) := by
    have := admit_all_in_window t5 [t1, t2, t3, t4]
      (by intro s hs; fin_cases hs <;> linarith) (by simp)
    simpa using this
  have e6 : rate_limit_step 5 60 t6 [t1, t2, t3, t4, t5] = (false, [t1, t2, t3, t4, t5]) := by
    apply reject_full_window
    · intro s hs; fin_cases hs <;> linarith
    · simp
  have e7 : (rate_limit_step 5 60 (t1 + 60) [t1, t2, t3, t4, t5]).1 = true := by
    have hp1 : decide (t1 + 60 - t1 < 60) = false := by
      simp only [decide_eq_false_iff_not, not_lt]
      linarith
    have hlen :
        (List.filter (fun ts => decide (t1 + 60 - ts < 60)) [t1, t2, t3, t4, t5]).length ≤ 4 := by
      rw [List.filter_cons, hp1]
      simp only [Bool.false_eq_true, if_false]
      calc (List.filter (fun ts => decide (t1 + 60 - ts < 60)) [t2, t3, t4, t5]).length
          ≤ [t2, t3, t4, t5].length := List.length_filter_le _ _
        _ = 4 := by simp
    simp only [rate_limit_step]
    rw [if_neg (by omega)]
  constructor
  · simp only [runRL_cons, runRL_nil, e1, e2, e3, e4, e5, e6]
  · simp only [runRL_cons, runRL_nil, e1, e2, e3, e4, e5, e6, e7]

/-- C1: for one client identity, the `rate_limit(5, 60)` limiter guarding
`POST /api/ask` admits at most 5 requests inside any rolling 60-second
window `[a, a+60)` (for time-ordered attempts); after every admission check
all retained timestamps are younger than 60 seconds (older ones were
discarded before the check); in a six-attempt burst inside one window the
first five are admitted, the sixth is rejected without its timestamp being
recorded (the state stays `[t1..t5]`), and an attempt made exactly 60
seconds after the first admitted request is admitted again. -/
theorem c1_rate_limiter :
    (∀ attempts : List ℚ, attempts.Sorted (· ≤ ·) →
      ∀ a : ℚ, (admittedFrom [] attempts).countP (inWin a) ≤ 5)
    ∧ (∀ now : ℚ, ∀ tss : List ℚ, ∀ s ∈ (rate_limit_step 5 60 now tss).2, now - s < 60)
    ∧ (∀ t1 t2 t3 t4 t5 t6 : ℚ, t1 ≤ t2 → t2 ≤ t3 → t3 ≤ t4 → t4 ≤ t5 → t5 ≤ t6 →
        t6 - t1 < 60 →
        runRL [] [t1, t2, t3, t4, t5, t6] =
          ([t1, t2, t3, t4, t5], [true, true, true, true, true, false])
        ∧ (runRL [] [t1, t2, t3, t4, t5, t6, t1 + 60]).2 =
          [true, true, true, true, true, false, true]) := by
  refine ⟨?_, state_in_window, sixth_rejected_scenario⟩
  intro attempts hsort a
  have h := admittedFrom_window_bound attempts [] hsort a
  simpa using h

unseal Rat.add Rat.sub Rat.mul Rat.inv in
/-- Witness: C1 instantiated at concrete attempt sequences. -/
theorem c1_rate_limiter_witness :
    (admittedFrom [] [0, 10, 20]).countP (inWin 0) ≤ 5
    ∧ (∀ s ∈ (rate_limit_step 5 60 (100 : ℚ) [50, 90]).2, (100 : ℚ) - s < 60)
    ∧ runRL [] [0, 1, 2, 3, 4, 5] = ([0, 1, 2, 3, 4], [true, true, true, true, true, false])
    ∧ (runRL [] [0, 1, 2, 3, 4, 5, (0 : ℚ) + 60]).2 =
        [true, true, true, true, true, false, true] := by
  refine ⟨c1_rate_limiter.1 [0, 10, 20] (by decide) 0,
          c1_rate_limiter.2.1 100 [50, 90],
          (c1_rate_limiter.2.2 0 1 2 3 4 5 (by decide) (by decide) (by decide) (by decide)
            (by decide) (by decide)).1,
          (c1_rate_limiter.2.2 0 1 2 3 4 5 (by decide) (by decide) (by decide) (by decide)
            (by decide) (by decide)).2⟩

/-- C3: `validate_question` rejects an absent (falsy) or empty input with
"No question provided", a whitespace-only input with "Empty question", an
input whose trimmed length exceeds 1000 characters with "Question too long"
(regardless of content, showing the check order), and an input whose
lowercased trimmed text contains a denylisted marker with "Invalid question
content" (in particular `<script>alert(1)</script>`); every other string is
accepted and returned trimmed but otherwise unchanged. -/
theorem c3_validate_question :
    validate_question .pyNone = .ok (false, "No question provided")
    ∧ validate_question (.pyStr "") = .ok (false, "No question provided")
    ∧ (∀ s : String, s ≠ "" → pyStrip s = "" →
        validate_question (.pyStr s) = .ok (false, "Empty question"))
    ∧ (∀ s : String, MAX_QUESTION_LENGTH < pyLen (pyStrip s) →
        validate_question (.pyStr s) = .ok (false, "Question too long (max 1000 characters)"))
    ∧ (∀ s : String, pyStrip s ≠ "" → pyLen (pyStrip s) ≤ MAX_QUESTION_LENGTH →
        suspicious_keywords.any (fun k => strHasSub (pyLower (pyStrip s)) k) →
        validate_question (.pyStr s) = .ok (false, "Invalid question content"))
    ∧ validate_question (.pyStr "<script>alert(1)</script>") =
        .ok (false, "Invalid question content")
    ∧ (∀ s : String, pyStrip s ≠ "" → pyLen (pyStrip s) ≤ MAX_QUESTION_LENGTH →
        ¬ suspicious_keywords.any (fun k => strHasSub (pyLower (pyStrip s)) k) →
        validate_question (.pyStr s) = .ok (true, pyStrip s)) := by
  refine ⟨rfl, rfl, ?_, ?_, ?_, rfl, ?_⟩
  · intro s h1 h2
    simp [validate_question, PyVal.falsy, h1, h2]
  · intro s h
    have hne : pyStrip s ≠ "" := by
      intro hcon
      rw [hcon] at h
      simp [pyLen] at h
    have hsne : s ≠ "" := by
      intro hcon
      subst hcon
      exact hne rfl
    simp [validate_question, PyVal.falsy, hsne, hne, h]
  · intro s h1 h2 h3
    have hsne : s ≠ "" := by
      intro hcon
      subst hcon
      exact h1 rfl
    simp [validate_question, PyVal.falsy, hsne, h1, Nat.not_lt.mpr h2, h3]
  · intro s h1 h2 h3
    have hsne : s ≠ "" := by
      intro hcon
      subst hcon
      exact h1 rfl
    simp [validate_question, PyVal.falsy, hsne, h1, Nat.not_lt.mpr h2, h3]

set_option maxRecDepth 20000 in
/-- Witness: C3 instantiated at concrete strings (a whitespace-only input,
a 1001-character input, a denylisted input, and a plain valid input). -/
theorem c3_validate_question_witness :
    validate_question (.pyStr "   ") = .ok (false, "Empty question")
    ∧ validate_question (.pyStr ⟨List.replicate 1001 'a'⟩) =
        .ok (false, "Question too long (max 1000 characters)")
    ∧ validate_question (.pyStr " javascript:x ") = .ok (false, "Invalid question content")
    ∧ validate_question (.pyStr " What is superposition? ") =
        .ok (true, "What is superposition?") := by
  refine ⟨c3_validate_question.2.2.1 "   " (by decide) (by decide),
          c3_validate_question.2.2.2.1 ⟨List.replicate 1001 'a'⟩ (by decide),
          c3_validate_question.2.2.2.2.1 " javascript:x " (by decide) (by decide) (by decide),
          ?_⟩
  have h := c3_validate_question.2.2.2.2.2.2 " What is superposition? "
    (by decide) (by decide) (by decide)
  simpa using h

/-- C8: a falsy JSON body (the empty object) yields 400 "Invalid JSON data";
a JSON object without a `question` key defaults to the empty question and
yields 400 "No question provided".  In both cases no upstream call is made. -/
theorem c8_falsy_body_and_missing_key :
    ∀ (now : ℚ) (store : Except String (List SimRow)) (upstream : UpstreamResult),
      ask_quantum_ai now [] (some (.pyDict [])) store upstream =
        ((400, .err "Invalid JSON data"), [now], false)
      ∧ ask_quantum_ai now [] (some (.pyDict [("topic", .pyStr "qubits")])) store upstream =
        ((400, .err "No question provided"), [now], false) :=
  fun _ _ _ => ⟨rfl, rfl⟩

/-- C9: a request body whose `question` value is a number (123) reaches
`validate_question`, whose `.strip()` call raises `AttributeError`; the
catch-all turns this into the generic 500, not a 400 validation rejection,
and no upstream call is made. -/
theorem c9_non_string_question :
    ∀ (now : ℚ) (store : Except String (List SimRow)) (upstream : UpstreamResult),
      ask_quantum_ai now [] (some (.pyDict [("question", .pyNum 123)])) store upstream =
        ((500, .err "An unexpected error occurred"), [now], false) :=
  fun _ _ _ => rfl

/-- The accumulator of `String.intercalate.go` only grows. -/
lemma intercalate_go_length (sep : String) :
    ∀ (l : List String) (acc : String),
      acc.length ≤ (String.intercalate.go acc sep l).length := by
  intro l
  induction l with
  | nil => intro acc; simp [String.intercalate.go]
  | cons x xs ih =>
    intro acc
    rw [String.intercalate.go]
    calc acc.length ≤ (acc ++ sep ++ x).length := by
          rw [String.length_append, String.length_append]; omega
      _ ≤ _ := ih (acc ++ sep ++ x)

/-- Joining a list whose head is nonempty never yields the empty string. -/
lemma intercalate_cons_ne_empty (sep h : String) (t : List String) (hh : 0 < h.length) :
    String.intercalate sep (h :: t) ≠ "" := by
  intro hcon
  have h1 : h.length ≤ (String.intercalate sep (h :: t)).length := by
    rw [String.intercalate]
    exact intercalate_go_length sep t h
  rw [hcon] at h1
  simp only [String.length] at h1
  simp at h1
  omega

/-- C4 counterexample: the store-failure fallback sentence is not the same
sentence as the empty-store placeholder, refuting the claim as stated. -/
theorem c4_two_placeholders_differ :
    get_simulation_summary 5 (Except.error "database is locked") =
      "Unable to retrieve simulation data."
    ∧ get_simulation_summary 5 (Except.ok ([] : List SimRow)) =
      "No quantum simulation data available yet."
    ∧ get_simulation_summary 5 (Except.error "database is locked") ≠
      get_simulation_summary 5 (Except.ok ([] : List SimRow)) :=
  ⟨rfl, rfl, by decide⟩

/-- C4 (amended): `get_simulation_summary` is total and never returns the
empty string; an empty record set yields the fixed placeholder sentence, and
a store-access failure is caught and yields the fixed fallback sentence
"Unable to retrieve simulation data." (a different sentence from the
empty-store placeholder). -/
theorem c4_summary_never_fails :
    ∀ store : Except String (List SimRow),
      get_simulation_summary 5 store ≠ ""
      ∧ (store = Except.ok [] →
          get_simulation_summary 5 store = "No quantum simulation data available yet.")
      ∧ (∀ e, store = Except.error e →
          get_simulation_summary 5 store = "Unable to retrieve simulation data.") := by
  intro store
  refine ⟨?_, ?_, ?_⟩
  · match store with
    | .error e => simp [get_simulation_summary]
    | .ok rows =>
      simp only [get_simulation_summary]
      by_cases hg : (summaryRows 5 rows).isEmpty
      · simp [hg]
      · simp only [hg, Bool.false_eq_true, if_false]
        exact intercalate_cons_ne_empty _ _ _ (by decide)
  · intro h
    subst h
    rfl
  · intro e h
    subst h
    rfl

/-- Witness: C4 (amended) at an empty store and at a failing store. -/
theorem c4_summary_never_fails_witness :
    get_simulation_summary 5 (Except.ok ([] : List SimRow)) ≠ ""
    ∧ get_simulation_summary 5 (Except.ok ([] : List SimRow)) =
        "No quantum simulation data available yet."
    ∧ get_simulation_summary 5 (Except.error "disk I/O error") =
        "Unable to retrieve simulation data." :=
  ⟨(c4_summary_never_fails (Except.ok [])).1,
   (c4_summary_never_fails (Except.ok [])).2.1 rfl,
   (c4_summary_never_fails (Except.error "disk I/O error")).2.2 "disk I/O error" rfl⟩

lemma exceptBind_ok {ε α β : Type} (a : α) (f : α → Except ε β) :
    ((Except.ok a : Except ε α) >>= f) = f a := rfl

lemma exceptBind_error {ε α β : Type} (e : ε) (f : α → Except ε β) :
    ((Except.error e : Except ε α) >>= f) = Except.error e := rfl

/-- Exhaustive outcomes of `validate_question`: the `AttributeError`, one of
the four fixed rejection reasons, or acceptance of the trimmed string. -/
lemma validate_question_cases (q : PyVal) :
    validate_question q = .error .attributeError
    ∨ validate_question q = .ok (false, "No question provided")
    ∨ validate_question q = .ok (false, "Empty question")
    ∨ validate_question q = .ok (false, "Question too long (max 1000 characters)")
    ∨ validate_question q = .ok (false, "Invalid question content")
    ∨ (∃ s, q = .pyStr s ∧ validate_question q = .ok (true, pyStrip s)) := by
  unfold validate_question
  split
  · exact Or.inr (Or.inl rfl)
  · split
    · dsimp only
      split
      · exact Or.inr (Or.inr (Or.inl rfl))
      · split
        · exact Or.inr (Or.inr (Or.inr (Or.inl rfl)))
        · split
          · exact Or.inr (Or.inr (Or.inr (Or.inr (Or.inl rfl))))
          · rename_i s _ _ _ _
            exact Or.inr (Or.inr (Or.inr (Or.inr (Or.inr ⟨s, rfl, rfl⟩))))
    · exact Or.inl rfl

/-- Exhaustive outcomes of `extractAnswer`: a Python exception, the fixed
malformed-response error, or the extracted content. -/
lemma extractAnswer_cases (data : PyVal) :
    (∃ e, extractAnswer data = .error e)
    ∨ extractAnswer data = .ok (500, .err "Invalid response from AI service")
    ∨ (∃ v, extractAnswer data = .ok (200, .ans v)) := by
  unfold extractAnswer
  rcases h1 : pyIn "choices" data with e | b
  · rw [exceptBind_error]
    exact Or.inl ⟨e, rfl⟩
  · rw [exceptBind_ok]
    by_cases hb : b
    · simp only [hb, Bool.not_true, Bool.false_eq_true, if_false]
      rcases h2 : pyGetStr data "choices" with e | choices
      · rw [exceptBind_error]
        exact Or.inl ⟨e, rfl⟩
      · rw [exceptBind_ok]
        by_cases hc : choices.falsy
        · simp only [hc, if_true]
          exact Or.inr (Or.inl rfl)
        · simp only [hc, Bool.false_eq_true, if_false]
          rcases h3 : pyGetIdx choices 0 with e | c0
          · rw [exceptBind_error]
            exact Or.inl ⟨e, rfl⟩
          · rw [exceptBind_ok]
            rcases h4 : pyGetStr c0 "message" with e | msg
            · rw [exceptBind_error]
              exact Or.inl ⟨e, rfl⟩
            · rw [exceptBind_ok]
              rcases h5 : pyGetStr msg "content" with e | content
              · rw [exceptBind_error]
                exact Or.inl ⟨e, rfl⟩
              · rw [exceptBind_ok]
                exact Or.inr (Or.inr ⟨content, rfl⟩)
    · simp only [Bool.not_eq_true] at hb
      simp only [hb, Bool.not_false, if_true]
      exact Or.inr (Or.inl rfl)

/-- Every error message the `/api/ask` try-block can produce is one of a
fixed set of constants. -/
lemma ask_handler_err_msgs (body : Option PyVal) (store : Except String (List SimRow))
    (upstream : UpstreamResult) (n : Nat) (m : String)
    (h : (ask_handler body store upstream).1 = (n, .err m)) :
    m ∈ ["Invalid JSON data", "No question provided", "Empty question",
         "Question too long (max 1000 characters)", "Invalid question content",
         "AI service is currently slow. Please try again.",
         "AI service temporarily unavailable", "Invalid response from AI service",
         "An unexpected error occurred"] := by
  rcases body with _ | v
  · simp only [ask_handler, Prod.mk.injEq, AskBody.err.injEq] at h
    rw [← h.2]
    decide
  · simp only [ask_handler] at h
    by_cases hf : v.falsy
    · simp only [hf, if_true, Prod.mk.injEq, AskBody.err.injEq] at h
      rw [← h.2]
      decide
    · simp only [hf, Bool.false_eq_true, if_false] at h
      rcases h1 : pyDictGet v "question" (.pyStr "") with e | uq <;> simp only [h1] at h
      · simp only [Prod.mk.injEq, AskBody.err.injEq] at h
        rw [← h.2]
        decide
      · rcases validate_question_cases uq with hv | hv | hv | hv | hv | ⟨s, _, hv⟩ <;>
          simp only [hv] at h
        case _ =>
          simp only [Prod.mk.injEq, AskBody.err.injEq] at h
          rw [← h.2]
          decide
        case _ =>
          simp only [Prod.mk.injEq, AskBody.err.injEq] at h
          rw [← h.2]
          decide
        case _ =>
          simp only [Prod.mk.injEq, AskBody.err.injEq] at h
          rw [← h.2]
          decide
        case _ =>
          simp only [Prod.mk.injEq, AskBody.err.injEq] at h
          rw [← h.2]
          decide
        case _ =>
          simp only [Prod.mk.injEq, AskBody.err.injEq] at h
          rw [← h.2]
          decide
        case _ =>
          rcases upstream with _ | _ | ⟨status, obody⟩
          · simp only [Prod.mk.injEq, AskBody.err.injEq] at h
            rw [← h.2]
            decide
          · simp only [Prod.mk.injEq, AskBody.err.injEq] at h
            rw [← h.2]
            decide
          · dsimp only at h
            by_cases hs : 400 ≤ status ∧ status < 600
            · rw [if_pos hs] at h
              simp only [Prod.mk.injEq, AskBody.err.injEq] at h
              rw [← h.2]
              decide
            · rw [if_neg hs] at h
              rcases obody with _ | data
              · simp only [Prod.mk.injEq, AskBody.err.injEq] at h
                rw [← h.2]
                decide
              · rcases extractAnswer_cases data with ⟨e, he⟩ | he | ⟨v2, he⟩ <;>
                  simp only [he] at h
                · simp only [Prod.mk.injEq, AskBody.err.injEq] at h
                  rw [← h.2]
                  decide
                · simp only [Prod.mk.injEq, AskBody.err.injEq] at h
                  rw [← h.2]
                  decide
                · simp at h

/-- C7 counterexample: the unhealthy branch of `/api/health` copies the
caught exception's text into the response body, so the client-visible error
message is not a fixed generic string independent of the internal detail. -/
theorem c7_health_leaks_detail :
    (health_check (Except.error "sqlite3.OperationalError: unable to open database file") 0).2 =
      .unhealthy "sqlite3.OperationalError: unable to open database file" 0
    ∧ health_check (Except.error "internal detail A") 0 ≠
      health_check (Except.error "internal detail B") 0 :=
  ⟨rfl, by decide⟩

/-- C7 (amended): every error message of `/api/ask` and `/api/quantum-data`
is drawn from a fixed set of constant strings and thus carries no internal
exception detail; the unhealthy branch of `/api/health`, however, embeds the
caught exception's text `str(e)` verbatim in its `error` field. -/
theorem c7_error_messages_fixed :
    (∀ (now : ℚ) (tss : List ℚ) (body : Option PyVal) (store : Except String (List SimRow))
        (upstream : UpstreamResult) (n : Nat) (m : String),
      (ask_quantum_ai now tss body store upstream).1 = (n, .err m) →
      m ∈ ["Rate limit exceeded. Try again later.", "Invalid JSON data", "No question provided",
           "Empty question", "Question too long (max 1000 characters)",
           "Invalid question content", "AI service is currently slow. Please try again.",
           "AI service temporarily unavailable", "Invalid response from AI service",
           "An unexpected error occurred"])
    ∧ (∀ (store : Except String (List SimRow)) (page pp : ℤ) (m : String),
        (get_quantum_data store page pp).2 = QDBody.err m →
        m ∈ ["Database error occurred", "An unexpected error occurred"])
    ∧ (∀ (e : String) (now : ℚ), (health_check (Except.error e) now).2 = .unhealthy e now) := by
  refine ⟨?_, ?_, fun e now => rfl⟩
  · intro now tss body store upstream n m h
    simp only [ask_quantum_ai] at h
    by_cases hrl : (rate_limit_step 5 60 now tss).1
    · simp only [hrl, Bool.not_true, Bool.false_eq_true, if_false] at h
      have := ask_handler_err_msgs body store upstream n m h
      simp only [List.mem_cons] at this ⊢
      tauto
    · simp only [Bool.not_eq_true] at hrl
      simp only [hrl, Bool.not_false, if_true, Prod.mk.injEq, AskBody.err.injEq] at h
      rw [← h.2]
      decide
  · intro store page pp m h
    rcases store with e | rows
    · simp only [get_quantum_data, QDBody.err.injEq] at h
      rw [← h]
      decide
    · simp only [get_quantum_data] at h
      by_cases hz : min pp 100 = 0
      · simp only [hz, if_true, QDBody.err.injEq] at h
        rw [← h]
        decide
      · simp only [hz, if_false] at h
        exact absurd h (by simp)

/-- Witness: C7 (amended) at concrete failing requests. -/
theorem c7_error_messages_fixed_witness :
    "Invalid JSON data" ∈
      ["Rate limit exceeded. Try again later.", "Invalid JSON data", "No question provided",
       "Empty question", "Question too long (max 1000 characters)",
       "Invalid question content", "AI service is currently slow. Please try again.",
       "AI service temporarily unavailable", "Invalid response from AI service",
       "An unexpected error occurred"]
    ∧ "Database error occurred" ∈ ["Database error occurred", "An unexpected error occurred"]
    ∧ (health_check (Except.error "boom") 0).2 = .unhealthy "boom" 0 :=
  ⟨c7_error_messages_fixed.1 0 [] none (Except.ok []) .timeout 400 "Invalid JSON data" rfl,
   c7_error_messages_fixed.2.1 (Except.error "x") 1 50 "Database error occurred" rfl,
   c7_error_messages_fixed.2.2 "boom" 0⟩

/-- A body whose top level lacks the `choices` key makes `extractAnswer`
return the fixed malformed-response error. -/
lemma extractAnswer_no_choices {data : PyVal} (h : pyIn "choices" data = .ok false) :
    extractAnswer data = .ok (500, .err "Invalid response from AI service") := by
  unfold extractAnswer
  rcases h1 : pyIn "choices" data with e | b
  · rw [h1] at h
    cases h
  · rw [h1] at h
    cases h
    rw [exceptBind_ok]
    rfl

/-- C2 counterexample: a non-2xx upstream status outside `[400, 600)` (here
300) does not yield 503 — `raise_for_status` does not raise for it, and a
well-formed body then yields 200 with the answer. -/
theorem c2_non_error_non_2xx_is_not_503 :
    ask_quantum_ai 0 [] (some (.pyDict [("question", .pyStr "What is superposition?")]))
      (Except.ok [])
      (.response 300 (some (.pyDict [("choices",
        .pyList [.pyDict [("message", .pyDict [("content", .pyStr "hello")])]])])))
      = ((200, .ans (.pyStr "hello")), [0], true) := rfl

/-- C2 (amended): every outcome of `POST /api/ask` maps to its specified
status — missing/invalid JSON body or falsy body 400, validation rejection
400 with the reason, rate-limit rejection 429 (decided before the body is
inspected and without an upstream call), upstream timeout 504, connection
error or HTTP 4xx/5xx status 503 (a non-error non-2xx status is processed
like a success, see the counterexample), body missing or with a falsy
`choices` field 500, and a well-formed body 200 with the extracted answer
unchanged; validation failures are decided without an upstream call. -/
theorem c2_ask_status_mapping :
    (∀ (now : ℚ) (tss : List ℚ) (body : Option PyVal) (store : Except String (List SimRow))
        (upstream : UpstreamResult),
      ¬ (rate_limit_step 5 60 now tss).1 = true →
      (ask_quantum_ai now tss body store upstream).1 =
        (429, .err "Rate limit exceeded. Try again later.")
      ∧ (ask_quantum_ai now tss body store upstream).2.2 = false)
    ∧ (∀ (now : ℚ) (tss : List ℚ) (body : Option PyVal) (store : Except String (List SimRow))
        (upstream : UpstreamResult),
      (rate_limit_step 5 60 now tss).1 = true →
      (ask_quantum_ai now tss body store upstream).1 = (ask_handler body store upstream).1
      ∧ (ask_quantum_ai now tss body store upstream).2.2 = (ask_handler body store upstream).2)
    ∧ (∀ (store : Except String (List SimRow)) (upstream : UpstreamResult),
      ask_handler none store upstream = ((400, .err "Invalid JSON data"), false))
    ∧ (∀ (v : PyVal) (store : Except String (List SimRow)) (upstream : UpstreamResult),
      v.falsy = true →
      ask_handler (some v) store upstream = ((400, .err "Invalid JSON data"), false))
    ∧ (∀ (v q : PyVal) (store : Except String (List SimRow)) (upstream : UpstreamResult)
        (reason : String),
      ¬ v.falsy = true → pyDictGet v "question" (.pyStr "") = .ok q →
      validate_question q = .ok (false, reason) →
      ask_handler (some v) store upstream = ((400, .err reason), false))
    ∧ (∀ (v q : PyVal) (store : Except String (List SimRow)) (s : String),
      ¬ v.falsy = true → pyDictGet v "question" (.pyStr "") = .ok q →
      validate_question q = .ok (true, s) →
      ask_handler (some v) store .timeout =
        ((504, .err "AI service is currently slow. Please try again."), true)
      ∧ ask_handler (some v) store .connectionError =
        ((503, .err "AI service temporarily unavailable"), true)
      ∧ (∀ (status : Nat) (obody : Option PyVal), 400 ≤ status → status < 600 →
          ask_handler (some v) store (.response status obody) =
            ((503, .err "AI service temporarily unavailable"), true))
      ∧ (∀ status : Nat, ¬ (400 ≤ status ∧ status < 600) →
          ask_handler (some v) store (.response status none) =
            ((500, .err "Invalid response from AI service"), true))
      ∧ (∀ (status : Nat) (data : PyVal), ¬ (400 ≤ status ∧ status < 600) →
          pyIn "choices" data = .ok false →
          ask_handler (some v) store (.response status (some data)) =
            ((500, .err "Invalid response from AI service"), true))
      ∧ (∀ (status : Nat) (data content : PyVal), ¬ (400 ≤ status ∧ status < 600) →
          extractAnswer data = .ok (200, .ans content) →
          ask_handler (some v) store (.response status (some data)) =
            ((200, .ans content), true))) := by
  refine ⟨?_, ?_, fun _ _ => rfl, ?_, ?_, ?_⟩
  · intro now tss body store upstream h
    simp only [Bool.not_eq_true] at h
    simp only [ask_quantum_ai, h, Bool.not_false, if_true]
    exact ⟨trivial, trivial⟩
  · intro now tss body store upstream h
    simp only [ask_quantum_ai, h, Bool.not_true, Bool.false_eq_true, if_false]
    exact ⟨trivial, trivial⟩
  · intro v store upstream h
    simp only [ask_handler, h, if_true]
  · intro v q store upstream reason hf hget hval
    simp only [ask_handler, hf, Bool.false_eq_true, if_false, hget, hval]
  · intro v q store s hf hget hval
    have hbase : ∀ upstream : UpstreamResult,
        ask_handler (some v) store upstream =
          (match upstream with
           | .timeout => ((504, .err "AI service is currently slow. Please try again."), true)
           | .connectionError => ((503, .err "AI service temporarily unavailable"), true)
           | .response status obody =>
             if 400 ≤ status ∧ status < 600 then
               ((503, .err "AI service temporarily unavailable"), true)
             else
               match obody with
               | none => ((500, .err "Invalid response from AI service"), true)
               | some data =>
                 match extractAnswer data with
                 | .ok r => (r, true)
                 | .error _ => ((500, .err "An unexpected error occurred"), true)) := by
      intro upstream
      simp only [ask_handler, hf, Bool.false_eq_true, if_false, hget, hval]
    refine ⟨hbase .timeout, hbase .connectionError, ?_, ?_, ?_, ?_⟩
    · intro status obody h1 h2
      rw [hbase (.response status obody)]
      dsimp only
      exact if_pos ⟨h1, h2⟩
    · intro status hs
      rw [hbase (.response status none)]
      dsimp only
      rw [if_neg hs]
    · intro status data hs hin
      rw [hbase (.response status (some data))]
      dsimp only
      rw [if_neg hs]
      rw [extractAnswer_no_choices hin]
    · intro status data content hs hex
      rw [hbase (.response status (some data))]
      dsimp only
      rw [if_neg hs]
      rw [hex]

unseal Rat.add Rat.sub Rat.mul Rat.inv in
/-- Witness: C2 (amended) at a concrete request for each outcome class. -/
theorem c2_ask_status_mapping_witness :
    (ask_quantum_ai 0 [0, 0, 0, 0, 0] none (Except.ok []) .timeout).1 =
      (429, .err "Rate limit exceeded. Try again later.")
    ∧ (ask_quantum_ai 0 [0, 0, 0, 0, 0] none (Except.ok []) .timeout).2.2 = false
    ∧ (ask_quantum_ai 0 [] none (Except.ok []) .timeout).1 =
      (ask_handler none (Except.ok []) .timeout).1
    ∧ ask_handler none (Except.ok []) .timeout = ((400, .err "Invalid JSON data"), false)
    ∧ ask_handler (some (.pyDict [])) (Except.ok []) .timeout =
      ((400, .err "Invalid JSON data"), false)
    ∧ ask_handler (some (.pyDict [("question", .pyStr "")])) (Except.ok []) .timeout =
      ((400, .err "No question provided"), false)
    ∧ ask_handler (some (.pyDict [("question", .pyStr "hi")])) (Except.ok []) .timeout =
      ((504, .err "AI service is currently slow. Please try again."), true)
    ∧ ask_handler (some (.pyDict [("question", .pyStr "hi")])) (Except.ok []) .connectionError =
      ((503, .err "AI service temporarily unavailable"), true)
    ∧ ask_handler (some (.pyDict [("question", .pyStr "hi")])) (Except.ok [])
        (.response 500 (some (.pyDict []))) =
      ((503, .err "AI service temporarily unavailable"), true)
    ∧ ask_handler (some (.pyDict [("question", .pyStr "hi")])) (Except.ok [])
        (.response 200 none) =
      ((500, .err "Invalid response from AI service"), true)
    ∧ ask_handler (some (.pyDict [("question", .pyStr "hi")])) (Except.ok [])
        (.response 200 (some (.pyDict [("id", .pyStr "x")]))) =
      ((500, .err "Invalid response from AI service"), true)
    ∧ ask_handler (some (.pyDict [("question", .pyStr "hi")])) (Except.ok [])
        (.response 200 (some (.pyDict [("choices",
          .pyList [.pyDict [("message", .pyDict [("content", .pyStr "hello")])]])]))) =
      ((200, .ans (.pyStr "hello")), true) := by
  have h6 := c2_ask_status_mapping.2.2.2.2.2 (.pyDict [("question", .pyStr "hi")])
    (.pyStr "hi") (Except.ok []) "hi" (by decide) rfl rfl
  refine ⟨(c2_ask_status_mapping.1 0 [0, 0, 0, 0, 0] none (Except.ok []) .timeout (by decide)).1,
          (c2_ask_status_mapping.1 0 [0, 0, 0, 0, 0] none (Except.ok []) .timeout (by decide)).2,
          (c2_ask_status_mapping.2.1 0 [] none (Except.ok []) .timeout (by decide)).1,
          c2_ask_status_mapping.2.2.1 (Except.ok []) .timeout,
          c2_ask_status_mapping.2.2.2.1 (.pyDict []) (Except.ok []) .timeout (by decide),
          c2_ask_status_mapping.2.2.2.2.1 (.pyDict [("question", .pyStr "")]) (.pyStr "")
            (Except.ok []) .timeout "No question provided" (by decide) rfl rfl,
          h6.1, h6.2.1,
          h6.2.2.1 500 (some (.pyDict [])) (by decide) (by decide),
          h6.2.2.2.1 200 (by decide),
          h6.2.2.2.2.1 200 (.pyDict [("id", .pyStr "x")]) (by decide) rfl,
          h6.2.2.2.2.2 200 (.pyDict [("choices",
            .pyList [.pyDict [("message", .pyDict [("content", .pyStr "hello")])]])])
            (.pyStr "hello") (by decide) rfl⟩

/-- Python `(t + n - 1) // n` is the ceiling of `t / n` for positive `n`. -/
lemma pages_eq_ceil (t : ℕ) (n : ℤ) (hn : 0 < n) :
    Int.fdiv ((t : ℤ) + n - 1) n = ⌈(t : ℚ) / (n : ℚ)⌉ := by
  rw [Int.fdiv_eq_ediv _ (le_of_lt hn)]
  have hmod := Int.ediv_add_emod ((t : ℤ) + n - 1) n
  have hlt := Int.emod_lt_of_pos ((t : ℤ) + n - 1) hn
  have hge := Int.emod_nonneg ((t : ℤ) + n - 1) (by omega : n ≠ 0)
  have hnq : (0 : ℚ) < (n : ℚ) := by exact_mod_cast hn
  set z := ((t : ℤ) + n - 1) / n with hz
  set r := ((t : ℤ) + n - 1) % n with hr
  symm
  rw [Int.ceil_eq_iff]
  constructor
  · rw [lt_div_iff₀ hnq]
    have e1 : (z - 1) * n = n * z - n := by ring
    have hint : (z - 1) * n < (t : ℤ) := by linarith
    exact_mod_cast hint
  · rw [div_le_iff₀ hnq]
    have e2 : z * n = n * z := by ring
    have hint : (t : ℤ) ≤ z * n := by linarith
    exact_mod_cast hint

/-- `LIMIT`/`OFFSET` with nonnegative arguments is drop-then-take. -/
lemma sqlSlice_nonneg (xs : List SimRow) (lim off : ℤ) (hl : 0 ≤ lim) (ho : 0 ≤ off) :
    sqlSlice xs lim off = (xs.drop off.toNat).take lim.toNat := by
  unfold sqlSlice
  rw [max_eq_left ho, if_neg (not_lt.mpr hl)]

/-- C6: for `page ≥ 1` and `per_page ≥ 1`, `/api/quantum-data` caps
`per_page` at 100 and answers 200 with the slice of the id-ordered records
at offset `(page-1)*per_page` of length at most `per_page`, the store's row
count as `total`, and `pages = ⌈total / per_page⌉`; the ordering is a sort
of the store by record id; with 120 records, `page=3, per_page=50` returns
the records at positions 101–120 with `total=120` and `pages=3`; an
out-of-range page returns an empty data list with status 200. -/
theorem c6_pagination :
    (∀ (rows : List SimRow) (page pp : ℤ), 1 ≤ page → 1 ≤ pp →
      get_quantum_data (Except.ok rows) page pp =
        (200, QDBody.ok
          (((sortRows rows).drop (((page - 1) * min pp 100).toNat)).take ((min pp 100).toNat))
          page (min pp 100) rows.length
          ⌈(rows.length : ℚ) / ((min pp 100 : ℤ) : ℚ)⌉)
      ∧ (((sortRows rows).drop (((page - 1) * min pp 100).toNat)).take
          ((min pp 100).toNat)).length ≤ (min pp 100).toNat)
    ∧ (∀ rows : List SimRow, List.Sorted rowLe (sortRows rows) ∧ List.Perm (sortRows rows) rows)
    ∧ (∀ rows : List SimRow, rows.length = 120 →
        get_quantum_data (Except.ok rows) 3 50 =
          (200, QDBody.ok ((sortRows rows).drop 100) 3 50 120 3))
    ∧ (∀ (rows : List SimRow) (page pp : ℤ), 1 ≤ page → 1 ≤ pp →
        rows.length ≤ ((page - 1) * min pp 100).toNat →
        ∃ pg, get_quantum_data (Except.ok rows) page pp =
          (200, QDBody.ok [] page (min pp 100) rows.length pg)) := by
  have main : ∀ (rows : List SimRow) (page pp : ℤ), 1 ≤ page → 1 ≤ pp →
      get_quantum_data (Except.ok rows) page pp =
        (200, QDBody.ok
          (((sortRows rows).drop (((page - 1) * min pp 100).toNat)).take ((min pp 100).toNat))
          page (min pp 100) rows.length
          ⌈(rows.length : ℚ) / ((min pp 100 : ℤ) : ℚ)⌉) := by
    intro rows page pp hpage hpp
    have hn : (0 : ℤ) < min pp 100 := lt_min (by omega) (by omega)
    have hnz : min pp 100 ≠ 0 := ne_of_gt hn
    have hoff : (0 : ℤ) ≤ (page - 1) * min pp 100 := mul_nonneg (by omega) (le_of_lt hn)
    unfold get_quantum_data
    dsimp only
    rw [if_neg hnz]
    rw [sqlSlice_nonneg (sortRows rows) (min pp 100) ((page - 1) * min pp 100)
      (le_of_lt hn) hoff]
    rw [pages_eq_ceil rows.length (min pp 100) hn]
  refine ⟨?_, ?_, ?_, ?_⟩
  · intro rows page pp hpage hpp
    exact ⟨main rows page pp hpage hpp, List.length_take_le _ _⟩
  · intro rows
    exact ⟨List.sorted_insertionSort rowLe rows, List.perm_insertionSort rowLe rows⟩
  · intro rows h120
    have h := main rows 3 50 (by omega) (by omega)
    have hmin : min (50 : ℤ) 100 = 50 := by omega
    rw [hmin] at h
    have hoff : (((3 : ℤ) - 1) * 50).toNat = 100 := by decide
    rw [hoff] at h
    have hlen : ((sortRows rows).drop 100).length ≤ 50 := by
      rw [List.length_drop]
      have : (sortRows rows).length = rows.length := List.length_insertionSort rowLe rows
      omega
    rw [show ((50 : ℤ)).toNat = 50 from rfl] at h
    rw [List.take_of_length_le hlen] at h
    have hceil : ⌈(rows.length : ℚ) / ((50 : ℤ) : ℚ)⌉ = 3 := by
      rw [h120]
      rw [← pages_eq_ceil 120 50 (by omega)]
      decide
    rw [hceil, h120] at h
    exact h
  · intro rows page pp hpage hpp hout
    refine ⟨⌈(rows.length : ℚ) / ((min pp 100 : ℤ) : ℚ)⌉, ?_⟩
    have h := main rows page pp hpage hpp
    have hnil : (sortRows rows).drop (((page - 1) * min pp 100).toNat) = [] := by
      apply List.drop_eq_nil_of_le
      have : (sortRows rows).length = rows.length := List.length_insertionSort rowLe rows
      omega
    rw [hnil] at h
    simpa using h

/-- Witness: C6 at concrete stores (an empty store for the general slice, a
replicated 120-record store for the 120/3/50 instance, and an out-of-range
page). -/
theorem c6_pagination_witness :
    get_quantum_data (Except.ok ([] : List SimRow)) 1 50 =
      (200, QDBody.ok [] 1 50 0 0)
    ∧ (get_quantum_data
        (Except.ok (List.replicate 120 (⟨"id", "VQE", 4, 9, "QASM", 120, 9/10, "d", "p"⟩ :
          SimRow))) 3 50 =
      (200, QDBody.ok
        ((sortRows (List.replicate 120 (⟨"id", "VQE", 4, 9, "QASM", 120, 9/10, "d", "p"⟩ :
          SimRow))).drop 100) 3 50 120 3))
    ∧ (∃ pg, get_quantum_data (Except.ok ([] : List SimRow)) 2 50 =
        (200, QDBody.ok [] 2 (min 50 100) 0 pg)) := by
  refine ⟨?_, ?_, ?_⟩
  · have h := (c6_pagination.1 ([] : List SimRow) 1 50 (by decide) (by decide)).1
    simpa using h
  · exact c6_pagination.2.2.1 _ (by simp)
  · exact c6_pagination.2.2.2 ([] : List SimRow) 2 50 (by decide) (by decide) (by decide)

/-- C10: `/api/quantum-data` enforces no lower bound on its parameters:
`per_page = 0` reaches the zero division in the page count and surfaces as
the generic 500; negative `per_page` and `page < 1` are accepted with a 200,
never a client-error rejection; every response status is 200 or 500. -/
theorem c10_no_parameter_lower_bound :
    (∀ (rows : List SimRow) (page : ℤ),
      get_quantum_data (Except.ok rows) page 0 = (500, .err "An unexpected error occurred"))
    ∧ (∀ (rows : List SimRow) (page pp : ℤ), pp < 0 →
        (get_quantum_data (Except.ok rows) page pp).1 = 200)
    ∧ (∀ (rows : List SimRow) (page pp : ℤ), 1 ≤ pp → page < 1 →
        (get_quantum_data (Except.ok rows) page pp).1 = 200)
    ∧ (∀ (store : Except String (List SimRow)) (page pp : ℤ),
        (get_quantum_data store page pp).1 = 200 ∨ (get_quantum_data store page pp).1 = 500) := by
  refine ⟨?_, ?_, ?_, ?_⟩
  · intro rows page
    have hz : min (0 : ℤ) 100 = 0 := by omega
    unfold get_quantum_data
    dsimp only
    rw [hz, if_pos rfl]
  · intro rows page pp hpp
    have hnz : min pp 100 ≠ 0 := by
      have : min pp 100 = pp := min_eq_left (by omega)
      omega
    unfold get_quantum_data
    dsimp only
    rw [if_neg hnz]
  · intro rows page pp hpp _
    have hnz : min pp 100 ≠ 0 := by
      have h1 : (0 : ℤ) < min pp 100 := lt_min (by omega) (by omega)
      omega
    unfold get_quantum_data
    dsimp only
    rw [if_neg hnz]
  · intro store page pp
    rcases store with e | rows
    · exact Or.inr rfl
    · by_cases hz : min pp 100 = 0
      · refine Or.inr ?_
        unfold get_quantum_data
        dsimp only
        rw [if_pos hz]
      · refine Or.inl ?_
        unfold get_quantum_data
        dsimp only
        rw [if_neg hz]

/-- Witness: C10 at concrete requests (`per_page` 0, −5, and `page` 0). -/
theorem c10_no_parameter_lower_bound_witness :
    get_quantum_data (Except.ok ([] : List SimRow)) 1 0 =
      (500, .err "An unexpected error occurred")
    ∧ (get_quantum_data (Except.ok ([] : List SimRow)) 1 (-5)).1 = 200
    ∧ (get_quantum_data (Except.ok ([] : List SimRow)) 0 50).1 = 200
    ∧ ((get_quantum_data (Except.ok ([] : List SimRow)) 1 50).1 = 200
       ∨ (get_quantum_data (Except.ok ([] : List SimRow)) 1 50).1 = 500) :=
  ⟨c10_no_parameter_lower_bound.1 [] 1,
   c10_no_parameter_lower_bound.2.1 [] 1 (-5) (by decide),
   c10_no_parameter_lower_bound.2.2.1 [] 0 50 (by decide) (by decide),
   c10_no_parameter_lower_bound.2.2.2 (Except.ok []) 1 50⟩

/-- Every member of the rendered group list is the aggregate of its own
algorithm's rows. -/
lemma mem_summaryRows {rows : List SimRow} {g : SummaryGroup} (lim : Nat)
    (h : g ∈ summaryRows lim rows) : g = mkGroup rows g.algorithm := by
  have h1 : g ∈ (groupRows rows).insertionSort accGE :=
    (List.take_sublist lim _).mem h
  have h2 : g ∈ groupRows rows := (List.perm_insertionSort accGE (groupRows rows)).mem_iff.mp h1
  rcases List.mem_map.mp h2 with ⟨a, _, ha⟩
  subst ha
  rfl

/-- C5: for a non-empty record set, the rendered summary is the header line
followed by the group lines; there are at most 5 group lines, one per
distinct algorithm; groups are ordered by mean accuracy descending (`accGE`);
each group carries the mean accuracy, mean runtime and row count of its
algorithm's rows (`mkGroup`); and each line is rendered in the exact fixed
format (mean accuracy to 2 decimals, mean runtime rounded to an integer). -/
theorem c5_summary_rendering :
    ∀ rows : List SimRow, rows ≠ [] →
      get_simulation_summary 5 (Except.ok rows) =
        String.intercalate "\n"
          ("Recent quantum simulation performance:" :: (summaryRows 5 rows).map summaryLine)
      ∧ (summaryRows 5 rows).length ≤ 5
      ∧ ((summaryRows 5 rows).map (fun g => g.algorithm)).Nodup
      ∧ List.Sorted accGE (summaryRows 5 rows)
      ∧ (∀ g ∈ summaryRows 5 rows, g = mkGroup rows g.algorithm)
      ∧ (∀ g ∈ summaryRows 5 rows,
          summaryLine g = "- " ++ g.algorithm ++ ": avg accuracy " ++
            formatFixed2 g.avg_accuracy ++ ", avg runtime " ++ formatFixed0 g.avg_runtime ++
            "ms (" ++ toString g.simulation_count ++ " runs)") := by
  intro rows hne
  have halg : algClasses rows ≠ [] := by
    intro hcon
    have : rows.map (fun r => r.algorithm) = [] := (List.dedup_eq_nil _).mp hcon
    rcases rows with _ | ⟨r, rest⟩
    · exact hne rfl
    · simp at this
  have hglen : (groupRows rows).length ≠ 0 := by
    intro hcon
    exact halg (List.eq_nil_of_length_eq_zero (by simpa [groupRows] using hcon))
  have hslen : (summaryRows 5 rows).length ≠ 0 := by
    unfold summaryRows
    rw [List.length_take, List.length_insertionSort]
    omega
  have hsne : summaryRows 5 rows ≠ [] := by
    intro hcon
    rw [hcon] at hslen
    exact hslen rfl
  refine ⟨?_, List.length_take_le _ _, ?_, ?_, fun g hg => mem_summaryRows 5 hg,
    fun g _ => rfl⟩
  · unfold get_simulation_summary
    dsimp only
    rw [if_neg (by simpa using hsne)]
  · have hmap : (groupRows rows).map (fun g => g.algorithm) = algClasses rows := by
      unfold groupRows
      rw [List.map_map]
      have hcomp : ((fun g : SummaryGroup => g.algorithm) ∘ mkGroup rows) = id := rfl
      rw [hcomp, List.map_id]
    have hnodup1 : ((groupRows rows).map (fun g => g.algorithm)).Nodup := by
      rw [hmap]
      exact List.nodup_dedup _
    have hperm2 :
        List.Perm (((groupRows rows).insertionSort accGE).map (fun g => g.algorithm))
          ((groupRows rows).map (fun g => g.algorithm)) :=
      (List.perm_insertionSort accGE (groupRows rows)).map _
    have hnodup2 := hperm2.nodup_iff.mpr hnodup1
    have hsub :
        List.Sublist ((summaryRows 5 rows).map (fun g => g.algorithm))
          (((groupRows rows).insertionSort accGE).map (fun g => g.algorithm)) :=
      (List.take_sublist 5 _).map _
    exact List.Nodup.sublist hsub hnodup2
  · exact List.Pairwise.sublist (List.take_sublist 5 _)
      (List.sorted_insertionSort accGE (groupRows rows))

unseal Rat.add Rat.sub Rat.mul Rat.inv in
example : get_simulation_summary 5
    (Except.ok [(⟨"a", "VQE", 4, 9, "QASM", 120, 9/10, "2024-01-01", "params"⟩ : SimRow)]) =
    "Recent quantum simulation performance:\n- VQE: avg accuracy 0.90, avg runtime 120ms (1 runs)" := by
  decide

/-- Witness: C5 at a concrete one-row store. -/
theorem c5_summary_rendering_witness :
    get_simulation_summary 5
        (Except.ok [(⟨"a", "VQE", 4, 9, "QASM", 120, 9/10, "2024-01-01", "params"⟩ : SimRow)]) =
      String.intercalate "\n" ("Recent quantum simulation performance:" ::
        (summaryRows 5
          [(⟨"a", "VQE", 4, 9, "QASM", 120, 9/10, "2024-01-01", "params"⟩ : SimRow)]).map
          summaryLine)
    ∧ (summaryRows 5
        [(⟨"a", "VQE", 4, 9, "QASM", 120, 9/10, "2024-01-01", "params"⟩ : SimRow)]).length ≤ 5
    ∧ List.Sorted accGE (summaryRows 5
        [(⟨"a", "VQE", 4, 9, "QASM", 120, 9/10, "2024-01-01", "params"⟩ : SimRow)]) :=
  ⟨(c5_summary_rendering _ (by simp)).1,
   (c5_summary_rendering _ (by simp)).2.1,
   (c5_summary_rendering _ (by simp)).2.2.2.1⟩

end QuantumApp
